/-
Verification of the diagnostic engine of the wtfi repository
(internal/diagnostic/diagnostic.go).

The Go checks invoke external commands and network primitives; each check is
embedded here as a pure function of an explicit environment record holding the
outcomes of those external operations (command output or invocation failure,
DNS lookup results, HTTP response, measured wall-clock durations).  Durations
are integer nanosecond counts, as in Go's time.Duration (int64 wraparound is
not modelled).  Fallible operations return Option: none plays the role of a
non-nil Go error.

Go's float64 arithmetic in parsePing is modelled exactly: a binary64 value is
represented as a dyadic rational, and strconv.ParseFloat as well as the one
multiplication are given IEEE-754 round-to-nearest-even semantics over exact
integer arithmetic (normal range only; overflow and subnormals, which are out
of reach for the strings involved, are not modelled).

The regular expressions of the source are embedded as explicit scanners.  All
patterns used (for the gateway, the interface name, the ping summary, the
signal strength and the traceroute hop) have the property that a greedy
character-class scan never needs to backtrack, because the character that must
follow a class repetition is never a member of the class; the scanners below
therefore implement exactly the leftmost-match semantics of Go's regexp.
-/
import Mathlib

set_option maxRecDepth 10000

namespace Wtfi

/-- Severity of a diagnostic step, mirroring the constants StatusOk,
StatusWarning, StatusError of diagnostic.go (Go zero value is StatusOk). -/
inductive Status where
  | Ok
  | Warning
  | Error
deriving DecidableEq, Repr

/-- The Result struct of diagnostic.go.  Field defaults are the Go zero
values, so a Lean structure literal mentioning only some fields corresponds
to the Go composite literal of the same shape. -/
structure Result where
  Name : String := ""
  Latency : Int := 0
  Status : Status := Status.Ok
  Message : String := ""
  Fix : String := ""
  Emoji : String := ""
  Details : List String := []
deriving DecidableEq, Repr

/-! ### String helpers (Go strings package, over List Char) -/

/-- strings.Contains. -/
def containsSub (s sub : List Char) : Bool :=
  match s with
  | [] => sub.isEmpty
  | c :: t => sub.isPrefixOf (c :: t) || containsSub t sub

/-- strings.Split with a single-character separator. -/
def splitOnChar (sep : Char) (l : List Char) : List (List Char) :=
  match l with
  | [] => [[]]
  | c :: cs =>
    let r := splitOnChar sep cs
    if c = sep then [] :: r
    else
      match r with
      | [] => [[c]]
      | h :: t => (c :: h) :: t

/-- Go unicode.IsSpace restricted to ASCII. -/
def isGoSpace (c : Char) : Bool :=
  c = ' ' || c = '\t' || c = '\n' || c.toNat = 11 || c.toNat = 12 || c.toNat = 13

/-- strings.TrimSpace. -/
def trimSpaceL (l : List Char) : List Char :=
  ((l.dropWhile isGoSpace).reverse.dropWhile isGoSpace).reverse

/-- Right-pad with spaces to the given width (fmt %-10s for our names). -/
def padRight (s : String) (w : Nat) : String :=
  s ++ (List.replicate (w - s.length) ' ').asString

/-! ### Exact model of the binary64 arithmetic used by parsePing -/

/-- Truncated (toward-zero) division, for a positive divisor. -/
def tdivPos (a b : Int) : Int :=
  if 0 ≤ a then ((a.natAbs / b.natAbs : Nat) : Int)
  else -((a.natAbs / b.natAbs : Nat) : Int)

/-- Go's % (truncated remainder), for a positive divisor. -/
def tmod (a b : Int) : Int := a - b * tdivPos a b

/-- Floor division, for a positive divisor. -/
def fdivPos (a b : Int) : Int :=
  if 0 ≤ a then ((a.natAbs / b.natAbs : Nat) : Int)
  else -(((a.natAbs + b.natAbs - 1) / b.natAbs : Nat) : Int)

/-- Round n / d (d positive) to the nearest integer, ties to even: the
rounding used by IEEE-754 binary64 at the mantissa level. -/
def rne (n d : Int) : Int :=
  let f := fdivPos n d
  let r := n - f * d
  if r + r < d then f
  else if d < r + r then f + 1
  else if 2 * fdivPos f 2 = f then f else f + 1

/-- Fueled floor of log2 (the fuel only bounds the recursion; the value is
exact whenever fuel is at least the argument). -/
def log2F : Nat → Nat → Nat
  | 0, _ => 0
  | f + 1, n => if n ≤ 1 then 0 else log2F f (n / 2) + 1

/-- Smallest k with den ≤ num * 2 ^ k, searched upward (fueled). -/
def negExpF (num den : Nat) : Nat → Nat → Nat
  | 0, k => k
  | f + 1, k => if den ≤ num * 2 ^ k then k else negExpF num den f (k + 1)

/-- Binary exponent e with 2 ^ e ≤ num / den < 2 ^ (e + 1), for a positive
num / den.  Fuel 1100 covers the whole binary64 normal range. -/
def expOf (num den : Nat) : Int :=
  if den ≤ num then ((log2F (num / den) (num / den) : Nat) : Int)
  else -((negExpF num den 1100 1 : Nat) : Int)

/-- A binary64 value represented exactly as the dyadic rational num / den. -/
structure Fl where
  num : Int
  den : Nat
deriving DecidableEq, Repr

/-- Round the rational n / d (d positive) to the nearest binary64 value,
round-to-nearest ties-to-even, normal range. -/
def floatRound (n : Int) (d : Nat) : Fl :=
  if n = 0 then ⟨0, 1⟩
  else
    let s : Int := if 0 ≤ n then 1 else -1
    let a : Nat := n.natAbs
    let e : Int := expOf a d
    if e ≤ 52 then
      ⟨s * rne ((a : Int) * 2 ^ (52 - e).toNat) (d : Int), 2 ^ (52 - e).toNat⟩
    else
      ⟨s * rne (a : Int) ((d : Int) * 2 ^ (e - 52).toNat) * 2 ^ (e - 52).toNat, 1⟩

/-- Accumulate a digit run as a natural number. -/
def digitsVal (l : List Char) : Nat :=
  l.foldl (fun a c => a * 10 + (c.toNat - 48)) 0

/-- strconv.ParseFloat restricted to the language of the capture class
[0-9.]+ : syntactically valid iff there is at most one dot and at least one
digit; the value is the decimal correctly rounded to binary64.  none models a
non-nil Go error. -/
def parseDecimal (l : List Char) : Option Fl :=
  if l.all (fun c => c.isDigit || c = '.') then
    match splitOnChar '.' l with
    | [ip] => if ip = [] then none else some (floatRound ((digitsVal ip : Nat) : Int) 1)
    | [ip, fp] =>
      if ip = [] ∧ fp = [] then none
      else some (floatRound ((digitsVal (ip ++ fp) : Nat) : Int) (10 ^ fp.length))
    | _ => none
  else none

/-- time.Duration(avg * float64(time.Millisecond)): the multiplication by the
exact constant 10^6 is rounded to binary64, then the Go float-to-int
conversion truncates toward zero. -/
def durOfFl (x : Fl) : Int :=
  let y := floatRound (x.num * 1000000) x.den
  tdivPos y.num (y.den : Int)

/-! ### parsePing -/

def numDot (c : Char) : Bool := c.isDigit || c = '.'

def pingPat : List Char := "min/avg/max/stddev = ".data

/-- One attempt of the regexp min/avg/max/stddev = [0-9.]+/([0-9.]+) at the
head of s, returning the capture group (the avg field). -/
def matchPingAt (s : List Char) : Option (List Char) :=
  if pingPat.isPrefixOf s then
    let r0 := s.drop pingPat.length
    let f1 := r0.takeWhile numDot
    if f1 = [] then none
    else
      match r0.drop f1.length with
      | '/' :: r1 =>
        let cap := r1.takeWhile numDot
        if cap = [] then none else some cap
      | _ => none
  else none

/-- Leftmost match of the ping summary pattern. -/
def findPingCap : List Char → Option (List Char)
  | [] => none
  | c :: t =>
    match matchPingAt (c :: t) with
    | some cap => some cap
    | none => findPingCap t

/-- parsePing of diagnostic.go.  Go returns (0, error) when the summary line
is absent, modelled as none.  When the line is present the ParseFloat error
is discarded (avg, _ := strconv.ParseFloat), so a malformed capture leaves
avg = 0 and the function returns duration 0 with a nil error. -/
def parsePing (out : String) : Option Int :=
  match findPingCap out.data with
  | none => none
  | some cap => some (durOfFl ((parseDecimal cap).getD ⟨0, 1⟩))

/-! ### parseGateway and parseInterface -/

/-- The literal prefix of the gateway pattern, as an explicit character
list. -/
def gwPat : List Char := ['g', 'a', 't', 'e', 'w', 'a', 'y', ':', ' ']

/-- The dotted-quad pattern [0-9]+.[0-9]+.[0-9]+.[0-9]+ at the head of s. -/
def matchQuadAt (s : List Char) : Option (List Char) :=
  let d1 := s.takeWhile Char.isDigit
  if d1 = [] then none
  else
    match s.drop d1.length with
    | '.' :: r1 =>
      let d2 := r1.takeWhile Char.isDigit
      if d2 = [] then none
      else
        match r1.drop d2.length with
        | '.' :: r2 =>
          let d3 := r2.takeWhile Char.isDigit
          if d3 = [] then none
          else
            match r2.drop d3.length with
            | '.' :: r3 =>
              let d4 := r3.takeWhile Char.isDigit
              if d4 = [] then none
              else some (d1 ++ '.' :: d2 ++ '.' :: d3 ++ '.' :: d4)
            | _ => none
        | _ => none
    | _ => none

def matchGatewayAt (s : List Char) : Option (List Char) :=
  if gwPat.isPrefixOf s then matchQuadAt (s.drop gwPat.length) else none

/-- Leftmost match of the gateway pattern. -/
def findGatewayCap : List Char → Option (List Char)
  | [] => none
  | c :: t =>
    match matchGatewayAt (c :: t) with
    | some cap => some cap
    | none => findGatewayCap t

/-- parseGateway: extract the capture of gateway: ([0-9]+.[0-9]+.[0-9]+.[0-9]+);
none models the Go error "no gateway ip found" (the NotFound case). -/
def parseGateway (out : String) : Option String :=
  match findGatewayCap out.data with
  | some cap => some cap.asString
  | none => none

def ifacePat : List Char := "interface: ".data

def isWordChar (c : Char) : Bool := c.isAlphanum || c = '_'

def matchIfaceAt (s : List Char) : Option (List Char) :=
  if ifacePat.isPrefixOf s then
    let cap := (s.drop ifacePat.length).takeWhile isWordChar
    if cap = [] then none else some cap
  else none

def findIfaceCap : List Char → Option (List Char)
  | [] => none
  | c :: t =>
    match matchIfaceAt (c :: t) with
    | some cap => some cap
    | none => findIfaceCap t

/-- parseInterface: extract the capture of interface: ([0-9A-Za-z_]+); none
models the Go error "no primary interface found". -/
def parseInterface (out : String) : Option String :=
  match findIfaceCap out.data with
  | some cap => some cap.asString
  | none => none

/-! ### parseWiFiInfo -/

def currentMarker : List Char := "Current Network Information".data
def signalMarker : List Char := "Signal / Noise".data
def otherMarker : List Char := "Other Local Wi-Fi Networks".data

/-- One attempt of the regexp (-?[0-9]+) dBm / (-?[0-9]+) dBm at the head of
s, returning the first capture (the signal). -/
def matchSignalAt (s : List Char) : Option (List Char) :=
  let (sign, r0) : List Char × List Char :=
    match s with
    | '-' :: rest => (['-'], rest)
    | _ => ([], s)
  let ds := r0.takeWhile Char.isDigit
  if ds = [] then none
  else
    let r1 := r0.drop ds.length
    if " dBm / ".data.isPrefixOf r1 then
      let r2 := r1.drop 7
      let (_, r3) : List Char × List Char :=
        match r2 with
        | '-' :: rest => (['-'], rest)
        | _ => ([], r2)
      let ds2 := r3.takeWhile Char.isDigit
      if ds2 = [] then none
      else
        let r4 := r3.drop ds2.length
        if " dBm".data.isPrefixOf r4 then some (sign ++ ds) else none
    else none

/-- Leftmost match of the signal pattern. -/
def findSignalCap : List Char → Option (List Char)
  | [] => none
  | c :: t =>
    match matchSignalAt (c :: t) with
    | some cap => some cap
    | none => findSignalCap t

/-- strconv.Atoi on a capture of -?[0-9]+ (always well-formed here). -/
def parseIntCap : List Char → Int
  | '-' :: ds => -((digitsVal ds : Nat) : Int)
  | ds => ((digitsVal ds : Nat) : Int)

/-- Loop state of parseWiFiInfo: res.Name, the ssid variable, rssi, the
collected details and the isCurrent flag. -/
structure WifiSt where
  name : String
  ssid : List Char
  rssi : Int
  details : List String
  isCurrent : Bool
deriving DecidableEq, Repr

/-- One iteration of the line loop of parseWiFiInfo; the Bool is the break
condition (the "Other Local Wi-Fi Networks" line). -/
def wifiStep (verbose : Bool) (line : List Char) (st : WifiSt) : WifiSt × Bool :=
  let trimmed := trimSpaceL line
  if containsSub line currentMarker then ({ st with isCurrent := true }, false)
  else if st.isCurrent then
    let st1 :=
      if trimmed.getLast? == some ':' && st.ssid == ([] : List Char) then
        let ss := trimmed.dropLast
        { st with ssid := ss, name := "Wi-Fi (" ++ ss.asString ++ ")" }
      else st
    let st2 :=
      if containsSub line signalMarker then
        match findSignalCap line with
        | some cap => { st1 with rssi := parseIntCap cap }
        | none => st1
      else st1
    let st3 :=
      if verbose && containsSub line [':'] then
        { st2 with details := st2.details ++ [trimmed.asString] }
      else st2
    (st3, containsSub line otherMarker)
  else (st, false)

def wifiLoop (verbose : Bool) : List (List Char) → WifiSt → WifiSt
  | [], st => st
  | line :: rest, st =>
    let p := wifiStep verbose line st
    if p.2 then p.1 else wifiLoop verbose rest p.1

/-- parseWiFiInfo of diagnostic.go. -/
def parseWiFiInfo (output : String) (iface : String) (verbose : Bool) : Result :=
  let st := wifiLoop verbose (splitOnChar '\n' output.data)
    { name := "Wi-Fi", ssid := [], rssi := 0, details := [], isCurrent := false }
  let res : Result :=
    { Name := st.name, Emoji := "📡", Status := Status.Ok,
      Message := "Interface: " ++ iface ++ ", Signal: " ++ toString st.rssi ++ " dBm",
      Details := st.details }
  if st.rssi < -80 && st.rssi != 0 then
    { res with
      Status := Status.Warning
      Fix := "Weak signal. Move closer to the Access Point." }
  else res

/-! ### Go duration rendering (used by the DNS benchmark detail lines) -/

/-- time.Duration.Round (half away from zero, to a multiple of m); the int64
overflow clamps to minDuration / maxDuration are not modelled. -/
def durRound (d m : Int) : Int :=
  if m ≤ 0 then d
  else
    let r := tmod d m
    if d < 0 then
      let r2 := -r
      if r2 + r2 < m then d + r2 else d - m + r2
    else if r + r < m then d - r
    else d + m - r

/-- The fraction-digit loop of Go's fmtFrac: emits prec fraction digits with
trailing zeros omitted (preceded by a dot when any digit is emitted), and
returns the remaining integer part. -/
def fmtFracLoop : Nat → Nat → List Char → Bool → List Char × Nat
  | 0, v, acc, pr => (if pr then '.' :: acc else [], v)
  | p + 1, v, acc, pr =>
    let digit := v % 10
    let pr2 := pr || decide (digit ≠ 0)
    let acc2 := if pr2 then Char.ofNat (48 + digit) :: acc else acc
    fmtFracLoop p (v / 10) acc2 pr2

/-- time.Duration.String. -/
def goDurationString (d : Int) : String :=
  let u := d.natAbs
  let core : List Char :=
    if u < 1000000000 then
      if u = 0 then "0s".data
      else if u < 1000 then (toString u).data ++ "ns".data
      else if u < 1000000 then
        let p := fmtFracLoop 3 u [] false
        (toString p.2).data ++ p.1 ++ "µs".data
      else
        let p := fmtFracLoop 6 u [] false
        (toString p.2).data ++ p.1 ++ "ms".data
    else
      let p := fmtFracLoop 9 u [] false
      let s1 := (toString (p.2 % 60)).data ++ p.1 ++ "s".data
      let mins := p.2 / 60
      if mins = 0 then s1
      else
        let s2 := (toString (mins % 60)).data ++ 'm' :: s1
        let hrs := mins / 60
        if hrs = 0 then s2 else (toString hrs).data ++ 'h' :: s2
  (if d < 0 then '-' :: core else core).asString

/-! ### The checks, over explicit environments -/

/-- Environment of CheckL2WiFi: the route -n get default output and the
system_profiler SPAirPortDataType output (none = command failure). -/
structure WifiEnv where
  routeOut : Option String
  profilerOut : Option String

def getPrimaryInterface (routeOut : Option String) : Option String :=
  match routeOut with
  | none => none
  | some out => parseInterface out

def getGatewayIP (routeOut : Option String) : Option String :=
  match routeOut with
  | none => none
  | some out => parseGateway out

/-- CheckL2WiFi of diagnostic.go. -/
def CheckL2WiFi (env : WifiEnv) (verbose : Bool) : Result :=
  match getPrimaryInterface env.routeOut with
  | none =>
    { Name := "Connectivity", Emoji := "📡", Status := Status.Error,
      Message := "No default route found", Fix := "Check your network hardware." }
  | some iface =>
    match env.profilerOut with
    | none =>
      { Name := "Wi-Fi", Emoji := "📡", Status := Status.Error,
        Message := "Failed to retrieve Wi-Fi telemetry" }
    | some out => parseWiFiInfo out iface verbose

/-- The ping helper of diagnostic.go: (0, err) on command failure, then
parsePing on the output.  The Int is the latency actually used by callers
(Go's first return value, which is 0 in every error path), the Bool is
whether the returned error is non-nil. -/
def ping (cmdOut : Option String) : Int × Bool :=
  match cmdOut with
  | none => (0, true)
  | some out =>
    match parsePing out with
    | none => (0, true)
    | some d => (d, false)

/-- Environment of CheckL3Gateway: outputs of route -n get default, of the
ping command, of arp -n (Go discards its error, so a plain string), of the
second route invocation inside the verbose branch, and of ifconfig. -/
structure GatewayEnv where
  routeOut : Option String
  pingOut : Option String
  arpOut : String
  verboseRouteOut : Option String
  ifconfigOut : String

/-- The ifconfig lines containing "inet ", trimmed, as collected in the
verbose branch of CheckL3Gateway. -/
def inetLines (out : String) : List String :=
  ((splitOnChar '\n' out.data).filter (fun l => containsSub l "inet ".data)).map
    (fun l => (trimSpaceL l).asString)

/-- CheckL3Gateway of diagnostic.go. -/
def CheckL3Gateway (env : GatewayEnv) (verbose : Bool) : Result :=
  match getGatewayIP env.routeOut with
  | none =>
    { Name := "Gateway", Emoji := "🏠", Status := Status.Error,
      Message := "Gateway IP discovery failed" }
  | some gw =>
    let p := ping env.pingOut
    let res : Result :=
      { Name := "Gateway (" ++ gw ++ ")", Emoji := "🏠", Latency := p.1,
        Status := Status.Ok }
    if p.2 then
      { res with
        Status := Status.Error
        Message := "Unreachable"
        Fix := "Check local cables or restart your router." }
    else if verbose then
      { res with Details :=
          ["--- ARP Entry ---", (trimSpaceL env.arpOut.data).asString,
           "--- Interface Details ---"] ++ inetLines env.ifconfigOut }
    else res

/-- Environment of CheckL3WAN: the output of the single ping to 1.1.1.1. -/
structure WanEnv where
  pingOut : Option String

/-- CheckL3WAN of diagnostic.go; the warning threshold is the strict
comparison lat > 150 * time.Millisecond. -/
def CheckL3WAN (env : WanEnv) : Result :=
  let p := ping env.pingOut
  if p.2 then
    { Name := "WAN Reachability", Emoji := "🌐", Status := Status.Error,
      Message := "Internet backbone unreachable" }
  else
    let res : Result :=
      { Name := "Internet (1.1.1.1)", Emoji := "🌐", Latency := p.1,
        Status := Status.Ok }
    if 150000000 < p.1 then
      { res with Status := Status.Warning, Message := "High WAN latency" }
    else res

/-- Environment of CheckDNSBenchmark: per-resolver measured duration and
whether the lookup returned an error. -/
structure DnsEnv where
  sysDur : Int
  sysErr : Bool
  googleDur : Int
  googleErr : Bool
  cfDur : Int
  cfErr : Bool

/-- One detail line of the DNS benchmark:
fmt.Sprintf("%-10s: %s (%s)", name, dur.Round(time.Microsecond), status). -/
def dnsLine (name : String) (dur : Int) (bad : Bool) : String :=
  padRight name 10 ++ ": " ++ goDurationString (durRound dur 1000) ++
    " (" ++ (if bad then "FAIL" else "OK") ++ ")"

/-- CheckDNSBenchmark of diagnostic.go.  It takes no verbose flag.  Go
iterates over a map whose iteration order is unspecified; a fixed order
(System, Google, Cloudflare) is used here — the facts proved below (three
detail lines, latency taken from the System resolver) are order-invariant. -/
def CheckDNSBenchmark (env : DnsEnv) : Result :=
  let details := [dnsLine "System" env.sysDur env.sysErr,
                  dnsLine "Google" env.googleDur env.googleErr,
                  dnsLine "Cloudflare" env.cfDur env.cfErr]
  let res : Result :=
    { Name := "DNS Benchmark", Emoji := "🚦", Status := Status.Ok,
      Latency := env.sysDur, Details := details }
  if 300000000 < res.Latency then
    { res with
      Status := Status.Warning
      Message := "High DNS latency detected"
      Fix := "Switch to a faster DNS provider like Cloudflare (1.1.1.1)." }
  else res

/-- Environment of CheckPrivateRelay: the result of net.LookupIP on
mask.icloud.com (the resolved addresses, rendered) and the measured
duration. -/
structure RelayEnv where
  lookup : Option (List String)
  dur : Int

/-- CheckPrivateRelay of diagnostic.go. -/
def CheckPrivateRelay (env : RelayEnv) (verbose : Bool) : Result :=
  let res : Result :=
    { Name := "iCloud Private Relay", Emoji := "🛡️", Latency := env.dur,
      Status := Status.Ok }
  match env.lookup with
  | some ips =>
    if ips.isEmpty then { res with Message := "Inactive or Bypass mode" }
    else
      { res with
        Message := "Active (Apple Proxy Node detected)"
        Details := if verbose then ips.map (fun ip => "Proxy Node: " ++ ip) else [] }
  | none => { res with Message := "Inactive or Bypass mode" }

/-! ### FastTraceroute -/

def fromPat : List Char := "from ".data

/-- One attempt of the regexp from ([0-9.]+): at the head of s. -/
def matchFromAt (s : List Char) : Option (List Char) :=
  if fromPat.isPrefixOf s then
    let r := s.drop fromPat.length
    let cap := r.takeWhile numDot
    if cap = [] then none
    else
      match r.drop cap.length with
      | ':' :: _ => some cap
      | _ => none
  else none

/-- Leftmost match of the hop-address pattern. -/
def findFromCap : List Char → Option (List Char)
  | [] => none
  | c :: t =>
    match matchFromAt (c :: t) with
    | some cap => some cap
    | none => findFromCap t

/-- fmt %2d for the TTL column. -/
def pad2 (n : Nat) : String := if n < 10 then " " ++ toString n else toString n

/-- Environment of FastTraceroute: for each TTL, the outcome of the bounded
ping probe (none = non-nil error, some out = the command output). -/
structure TraceEnv where
  probe : Nat → Option String

/-- The slot written for one TTL: the hop line on success with a matching
address, the explicit timeout marker on probe failure, and the empty string
(the untouched slot) when the probe succeeded but the output has no
from ([0-9.]+): match. -/
def hopEntry (ttl : Nat) (probe : Option String) : String :=
  match probe with
  | some out =>
    match findFromCap out.data with
    | some ip => "Hop " ++ pad2 ttl ++ ": " ++ ip.asString
    | none => ""
  | none => "Hop " ++ pad2 ttl ++ ": * (Request timed out)"

/-- FastTraceroute of diagnostic.go: the hops array has 11 slots indexed by
TTL (slot 0 is never written), each goroutine writes only its own slot, and
after the join the non-empty slots are emitted in index order. -/
def FastTraceroute (env : TraceEnv) (verbose : Bool) : Result :=
  if !verbose then
    { Name := "Fast Trace", Emoji := "📍", Status := Status.Ok,
      Message := "Use -v flag to view the network path" }
  else
    let hops := "" :: (List.range' 1 10).map (fun t => hopEntry t (env.probe t))
    { Name := "Fast Trace", Emoji := "📍", Status := Status.Ok,
      Details := hops.filter (fun h => h != "") }

/-! ### CheckCaptivePortal -/

def successMarker : List Char := "Success".data

/-- An HTTP response as far as the check consumes it: the status line, the
header map (iteration order unspecified in Go; modelled as the given list
order) and the raw body bytes. -/
structure PortalResp where
  status : String
  headers : List (String × List String)
  body : List Char
deriving DecidableEq

/-- Environment of CheckCaptivePortal: the outcome of the HTTP GET (none =
transport failure) and the measured duration. -/
structure PortalEnv where
  resp : Option PortalResp
  dur : Int

def joinComma : List String → String
  | [] => ""
  | [s] => s
  | s :: rest => s ++ ", " ++ joinComma rest

/-- CheckCaptivePortal of diagnostic.go: io.LimitReader caps the body read at
1024 bytes and the literal marker "Success" is searched in that prefix. -/
def CheckCaptivePortal (env : PortalEnv) (verbose : Bool) : Result :=
  match env.resp with
  | none =>
    { Name := "Captive Portal", Emoji := "🍎", Status := Status.Error,
      Message := "HTTP health check failed" }
  | some r =>
    let res : Result :=
      { Name := "Captive Portal", Emoji := "🍎", Latency := env.dur,
        Status := Status.Ok }
    let res :=
      if verbose then
        { res with Details := ("Response Status: " ++ r.status) ::
            r.headers.map (fun kv => kv.1 ++ ": " ++ joinComma kv.2) }
      else res
    if containsSub (r.body.take 1024) successMarker then res
    else
      { res with
        Status := Status.Warning
        Message := "Login Required (Captive Portal detected)"
        Fix := "Open your browser to sign in to the network." }

/-! ### Concrete inputs used in the closed theorems and witnesses -/

/-- A canonical route -n get default dump. -/
def routeDumpOk : String :=
  "   route to: default\ndestination: default\n       mask: default\n    gateway: 192.168.0.1\n  interface: en0\n      flags: <UP,GATEWAY,DONE,STATIC,PRCLONING>\n"

/-- A route dump with no gateway line at all. -/
def routeDumpAbsent : String :=
  "   route to: default\ndestination: default\n  interface: en0\n"

/-- A route dump whose gateway token is not followed by a dotted quad. -/
def routeDumpBadQuad : String :=
  "    gateway: 192.168.0\n  interface: en0\n"

/-- The gateway line of routeDumpOk, as an explicit character list. -/
def gwLineL : List Char :=
  ['g', 'a', 't', 'e', 'w', 'a', 'y', ':', ' ',
   '1', '9', '2', '.', '1', '6', '8', '.', '0', '.', '1']

/-- The capture produced for gwLineL. -/
def ipCapL : List Char :=
  ['1', '9', '2', '.', '1', '6', '8', '.', '0', '.', '1']

/-- A prefix with no letter g (so no gateway match can start inside it). -/
def preW : List Char := "   route to: default\ndestination: default\n    ".data

/-- A suffix not starting with a digit. -/
def postW : List Char := "\n  interface: en0\n".data

/-- A full ping output whose average field is 12.345 milliseconds. -/
def pingOut12345 : String :=
  "PING 1.1.1.1 (1.1.1.1): 56 data bytes\n64 bytes from 1.1.1.1: icmp_seq=0 ttl=57 time=12.345 ms\n\n--- 1.1.1.1 ping statistics ---\n1 packets transmitted, 1 packets received, 0.0% packet loss\nround-trip min/avg/max/stddev = 12.345/12.345/12.345/0.000 ms\n"

/-- A ping summary whose average is exactly the 150 ms WAN threshold. -/
def pingSummaryAt : String :=
  "round-trip min/avg/max/stddev = 149.900/150.000/150.100/0.050 ms"

/-- A ping summary whose average is one microsecond above the threshold. -/
def pingSummaryAbove : String :=
  "round-trip min/avg/max/stddev = 149.900/150.001/150.100/0.050 ms"

/-- A ping output whose summary line is present but whose captured average
field (1.2.3) is not a well-formed number. -/
def pingOutMalformedAvg : String :=
  "round-trip min/avg/max/stddev = 1.0/1.2.3/1.5/0.2 ms"

def wanEnvAt : WanEnv := ⟨some pingSummaryAt⟩

def wanEnvAbove : WanEnv := ⟨some pingSummaryAbove⟩

/-- A gateway environment whose ping latency is one microsecond above the
WAN warning threshold. -/
def gwEnvAbove : GatewayEnv := ⟨some routeDumpOk, some pingSummaryAbove, "", none, ""⟩

def dnsEnvZero : DnsEnv := ⟨0, false, 0, false, 0, false⟩

def relayEnvActive : RelayEnv := ⟨some ["104.28.28.28"], 5000000⟩

def relayEnvFail : RelayEnv := ⟨none, 5000000⟩

/-- A response body of 1024 filler bytes followed by the success marker:
the marker lies entirely beyond the 1024-byte read cap. -/
def portalBigBody : List Char := List.replicate 1024 'x' ++ successMarker

def portalEnvBig : PortalEnv := ⟨some ⟨"200 OK", [], portalBigBody⟩, 42⟩

def traceEnvAllFail : TraceEnv := ⟨fun _ => none⟩

/-- A telemetry blob with no Current Network Information marker. -/
def wifiOutNoMarker : String :=
  "Software Versions:\n      CoreWLAN: 16.0 (1657)\n      Menu Extra: 17.0 (1728)\nInterfaces:\n"

/-- The TTLs of FastTraceroute whose slot ends up non-empty. -/
def hopTTLs (env : TraceEnv) : List Nat :=
  (List.range' 1 10).filter (fun t => hopEntry t (env.probe t) != "")

/-! ### Helper lemmas -/

/-- Both error paths of the ping helper return latency 0 (Go returns
(0, err) on command failure and parsePing returns (0, err) on a missing
summary line). -/
theorem ping_err_latency_zero (x : Option String) (h : (ping x).2 = true) :
    (ping x).1 = 0 := by
  cases x with
  | none => rfl
  | some out =>
    cases hp : parsePing out with
    | none => simp [ping, hp]
    | some d => simp [ping, hp] at h

/-- With verbose false, one wifi loop iteration never touches the details. -/
theorem wifiStep_details_nonverbose (l : List Char) (st : WifiSt) :
    ((wifiStep false l st).1).details = st.details := by
  simp only [wifiStep, Bool.false_and, Bool.false_eq_true, if_false]
  split
  · rfl
  · split
    · split
      · split <;> (dsimp only; split <;> rfl)
      · dsimp only
        split <;> rfl
    · rfl

/-- With verbose false, the wifi loop never touches the details. -/
theorem wifiLoop_details_nonverbose (ls : List (List Char)) (st : WifiSt) :
    (wifiLoop false ls st).details = st.details := by
  induction ls generalizing st with
  | nil => rfl
  | cons l rest ih =>
    simp only [wifiLoop]
    split
    · exact wifiStep_details_nonverbose l st
    · rw [ih]
      exact wifiStep_details_nonverbose l st

/-- parseWiFiInfo never records a latency. -/
theorem parseWiFiInfo_latency_zero (o i : String) (v : Bool) :
    (parseWiFiInfo o i v).Latency = 0 := by
  simp only [parseWiFiInfo]
  split <;> rfl

/-- parseWiFiInfo with verbose false yields no details. -/
theorem parseWiFiInfo_details_nonverbose (o i : String) :
    (parseWiFiInfo o i false).Details = [] := by
  simp only [parseWiFiInfo]
  split <;> simp [wifiLoop_details_nonverbose]

/-- parseWiFiInfo never reports an error. -/
theorem parseWiFiInfo_status_ne_error (o i : String) (v : Bool) :
    (parseWiFiInfo o i v).Status ≠ Status.Error := by
  simp only [parseWiFiInfo]
  split <;> simp

/-- A line free of the Current Network Information marker leaves a
not-yet-current loop state untouched. -/
theorem wifiStep_skip (v : Bool) (l : List Char) (st : WifiSt)
    (hcur : st.isCurrent = false) (hl : containsSub l currentMarker = false) :
    wifiStep v l st = (st, false) := by
  simp [wifiStep, hl, hcur]

/-- If no line contains the Current Network Information marker the whole
loop leaves a not-yet-current state untouched. -/
theorem wifiLoop_skip (v : Bool) (ls : List (List Char)) (st : WifiSt)
    (hcur : st.isCurrent = false) (h : ∀ l ∈ ls, containsSub l currentMarker = false) :
    wifiLoop v ls st = st := by
  induction ls with
  | nil => rfl
  | cons l rest ih =>
    have hs := wifiStep_skip v l st hcur (h l (List.mem_cons_self l rest))
    simp only [wifiLoop, hs]
    exact ih fun x hx => h x (List.mem_cons_of_mem _ hx)

/-- CheckL3Gateway never reports Warning: its only statuses are Ok and
Error (there is no latency threshold in the gateway check). -/
theorem CheckL3Gateway_ok_or_error (e : GatewayEnv) (v : Bool) :
    (CheckL3Gateway e v).Status = Status.Ok ∨
    (CheckL3Gateway e v).Status = Status.Error := by
  simp only [CheckL3Gateway]
  cases getGatewayIP e.routeOut with
  | none => exact Or.inr rfl
  | some gw =>
    by_cases hb : (ping e.pingOut).2 = true
    · simp [hb]
    · simp only [hb]
      split
      · exact Or.inr rfl
      · split <;> simp

/-- CheckPrivateRelay always reports Ok. -/
theorem CheckPrivateRelay_status_ok (e : RelayEnv) (v : Bool) :
    (CheckPrivateRelay e v).Status = Status.Ok := by
  simp only [CheckPrivateRelay]
  split
  · split <;> rfl
  · rfl

/-- CheckPrivateRelay always records the lookup duration as latency. -/
theorem CheckPrivateRelay_latency (e : RelayEnv) (v : Bool) :
    (CheckPrivateRelay e v).Latency = e.dur := by
  simp only [CheckPrivateRelay]
  split
  · split <;> rfl
  · rfl

/-- A gateway match cannot start at a character other than g. -/
theorem matchGatewayAt_cons_ne {c : Char} {t : List Char} (h : c ≠ 'g') :
    matchGatewayAt (c :: t) = none := by
  have hbeq : ('g' == c) = false := beq_eq_false_iff_ne.mpr (Ne.symm h)
  simp [matchGatewayAt, gwPat, List.isPrefixOf, hbeq]

/-- The scan for the gateway pattern steps over a non-matching position. -/
theorem findGatewayCap_cons_of_none {c : Char} {t : List Char}
    (h : matchGatewayAt (c :: t) = none) :
    findGatewayCap (c :: t) = findGatewayCap t := by
  simp [findGatewayCap, h]

/-- CheckL2WiFi never records a latency in any of its paths. -/
theorem CheckL2WiFi_latency_zero (e : WifiEnv) (v : Bool) :
    (CheckL2WiFi e v).Latency = 0 := by
  simp only [CheckL2WiFi]
  split
  · rfl
  · split
    · rfl
    · exact parseWiFiInfo_latency_zero _ _ _

/-- FastTraceroute never records a latency. -/
theorem FastTraceroute_latency_zero (e : TraceEnv) (v : Bool) :
    (FastTraceroute e v).Latency = 0 := by
  simp only [FastTraceroute]
  split <;> rfl

/-- FastTraceroute always reports Ok. -/
theorem FastTraceroute_status_ok (e : TraceEnv) (v : Bool) :
    (FastTraceroute e v).Status = Status.Ok := by
  simp only [FastTraceroute]
  split <;> rfl

/-- CheckDNSBenchmark never reports an error (only Ok or Warning). -/
theorem CheckDNSBenchmark_not_error (e : DnsEnv) :
    (CheckDNSBenchmark e).Status ≠ Status.Error := by
  simp only [CheckDNSBenchmark]
  split <;> simp

/-- In the Error path of CheckL3WAN no latency is recorded. -/
theorem CheckL3WAN_err_latency (e : WanEnv)
    (h : (CheckL3WAN e).Status = Status.Error) : (CheckL3WAN e).Latency = 0 := by
  by_cases hb : (ping e.pingOut).2 = true
  · simp [CheckL3WAN, hb]
  · exfalso
    simp only [CheckL3WAN] at h
    rw [if_neg hb] at h
    split at h <;> simp at h

/-- In the Error paths of CheckL3Gateway no latency is recorded. -/
theorem CheckL3Gateway_err_latency (e : GatewayEnv) (v : Bool)
    (h : (CheckL3Gateway e v).Status = Status.Error) :
    (CheckL3Gateway e v).Latency = 0 := by
  cases hg : getGatewayIP e.routeOut with
  | none => simp [CheckL3Gateway, hg]
  | some gw =>
    by_cases hb : (ping e.pingOut).2 = true
    · simp [CheckL3Gateway, hg, hb, ping_err_latency_zero e.pingOut hb]
    · exfalso
      simp only [CheckL3Gateway, hg] at h
      rw [if_neg hb] at h
      split at h <;> simp at h

/-- In the Error path of CheckCaptivePortal no latency is recorded. -/
theorem CheckCaptivePortal_err_latency (e : PortalEnv) (v : Bool)
    (h : (CheckCaptivePortal e v).Status = Status.Error) :
    (CheckCaptivePortal e v).Latency = 0 := by
  rcases e with ⟨resp, dur⟩
  cases resp with
  | none => rfl
  | some r =>
    exfalso
    simp only [CheckCaptivePortal] at h
    split at h
    · split at h <;> simp at h
    · split at h <;> simp at h

/-- A hop line always starts with the four characters Hop-space, so it is
never the empty string. -/
theorem hop_append_ne_empty (s t : String) : (("Hop " ++ s ++ t) != "") = true := by
  rw [bne_iff_ne]
  intro hcontra
  have hlen := congrArg String.length hcontra
  rw [String.length_append, String.length_append] at hlen
  have h4 : ("Hop " : String).length = 4 := rfl
  have h0 : ("" : String).length = 0 := rfl
  rw [h4, h0] at hlen
  omega

/-! ### The claims -/

/-- C1 (counterexample): CheckDNSBenchmark takes no verbose flag, yet its
Details are populated (one line per resolver) on every run — so it is not
the case that Details is populated only under an explicit verbose flag. -/
theorem dnsBenchmark_populates_details_without_verbose :
    (CheckDNSBenchmark dnsEnvZero).Details ≠ [] := by decide

/-- C1 (amended): every check that takes a verbose flag leaves Details empty
when the flag is false (CheckL3WAN, which takes no flag, never populates
Details), but CheckDNSBenchmark takes no verbose flag and always emits
exactly one detail line per resolver (three lines). -/
theorem details_empty_unless_verbose :
    ∀ (e1 : WifiEnv) (e2 : GatewayEnv) (e3 : RelayEnv) (e4 : TraceEnv)
      (e5 : PortalEnv) (e6 : WanEnv) (e7 : DnsEnv),
      (CheckL2WiFi e1 false).Details = [] ∧
      (CheckL3Gateway e2 false).Details = [] ∧
      (CheckPrivateRelay e3 false).Details = [] ∧
      (FastTraceroute e4 false).Details = [] ∧
      (CheckCaptivePortal e5 false).Details = [] ∧
      (CheckL3WAN e6).Details = [] ∧
      (CheckDNSBenchmark e7).Details.length = 3 := by
  intro e1 e2 e3 e4 e5 e6 e7
  refine ⟨?_, ?_, ?_, ?_, ?_, ?_, ?_⟩
  · simp only [CheckL2WiFi]
    split
    · rfl
    · split
      · rfl
      · exact parseWiFiInfo_details_nonverbose _ _
  · simp only [CheckL3Gateway]
    split
    · rfl
    · split <;> rfl
  · simp only [CheckPrivateRelay]
    split
    · split <;> rfl
    · rfl
  · rfl
  · simp only [CheckCaptivePortal]
    split
    · rfl
    · split <;> rfl
  · simp only [CheckL3WAN]
    split
    · rfl
    · split <;> rfl
  · simp only [CheckDNSBenchmark]
    split <;> rfl

/-- C2: in verbose mode the emitted hop details are exactly the non-empty
slots in ascending TTL order (the TTL list is strictly increasing, so
completion order cannot reorder them), and every TTL whose probe failed
appears as the explicit Request-timed-out marker rather than being
omitted. -/
theorem fastTraceroute_ordered_hops_and_timeout_markers (env : TraceEnv) :
    (FastTraceroute env true).Details =
      (hopTTLs env).map (fun t => hopEntry t (env.probe t)) ∧
    List.Pairwise (· < ·) (hopTTLs env) ∧
    ∀ t ∈ List.range' 1 10, env.probe t = none →
      ("Hop " ++ pad2 t ++ ": * (Request timed out)") ∈
        (FastTraceroute env true).Details := by
  have hdet : (FastTraceroute env true).Details =
      (hopTTLs env).map (fun t => hopEntry t (env.probe t)) := by
    simp only [FastTraceroute, Bool.not_true, Bool.false_eq_true, if_false, hopTTLs]
    rw [List.filter_cons_of_neg (by decide), List.filter_map]
    rfl
  refine ⟨hdet, List.Pairwise.sublist (List.filter_sublist _) (List.pairwise_lt_range' 1 10), ?_⟩
  intro t ht hnone
  have hmark : hopEntry t (env.probe t) =
      "Hop " ++ pad2 t ++ ": * (Request timed out)" := by
    rw [hnone]
    rfl
  have hne : (hopEntry t (env.probe t) != "") = true := by
    rw [hmark]
    exact hop_append_ne_empty _ _
  rw [hdet]
  exact List.mem_map.mpr ⟨t, List.mem_filter.mpr ⟨ht, hne⟩, hmark⟩

/-- C2 (witness): with every probe failing, TTL 3 is rendered as an explicit
timeout marker in the details. -/
theorem fastTraceroute_ordered_hops_witness :
    ("Hop " ++ pad2 3 ++ ": * (Request timed out)") ∈
      (FastTraceroute traceEnvAllFail true).Details :=
  (fastTraceroute_ordered_hops_and_timeout_markers traceEnvAllFail).2.2 3 (by decide) rfl

/-- C3: a ping output whose summary line carries the average 12.345 parses
to exactly 12 milliseconds + 345 microseconds — the fractional-millisecond
decimal survives the float64 round trip and the truncating conversion,
with no floor-rounding to whole milliseconds. -/
theorem parsePing_submillisecond_precision :
    parsePing pingOut12345 = some 12345000 ∧
    (12345000 : Int) = 12 * 1000000 + 345 * 1000 := by
  exact ⟨by decide, by decide⟩

/-- C4: for every check, an Error status implies a zero Latency. -/
theorem error_implies_zero_latency :
    (∀ (e : WifiEnv) (v : Bool),
      (CheckL2WiFi e v).Status = Status.Error → (CheckL2WiFi e v).Latency = 0) ∧
    (∀ (e : GatewayEnv) (v : Bool),
      (CheckL3Gateway e v).Status = Status.Error → (CheckL3Gateway e v).Latency = 0) ∧
    (∀ e : WanEnv, (CheckL3WAN e).Status = Status.Error → (CheckL3WAN e).Latency = 0) ∧
    (∀ e : DnsEnv,
      (CheckDNSBenchmark e).Status = Status.Error → (CheckDNSBenchmark e).Latency = 0) ∧
    (∀ (e : RelayEnv) (v : Bool),
      (CheckPrivateRelay e v).Status = Status.Error → (CheckPrivateRelay e v).Latency = 0) ∧
    (∀ (e : TraceEnv) (v : Bool),
      (FastTraceroute e v).Status = Status.Error → (FastTraceroute e v).Latency = 0) ∧
    (∀ (e : PortalEnv) (v : Bool),
      (CheckCaptivePortal e v).Status = Status.Error → (CheckCaptivePortal e v).Latency = 0) :=
  ⟨fun e v _ => CheckL2WiFi_latency_zero e v,
   fun e v h => CheckL3Gateway_err_latency e v h,
   fun e h => CheckL3WAN_err_latency e h,
   fun e h => absurd h (CheckDNSBenchmark_not_error e),
   fun e v h => Status.noConfusion ((CheckPrivateRelay_status_ok e v).symm.trans h),
   fun e v _ => FastTraceroute_latency_zero e v,
   fun e v h => CheckCaptivePortal_err_latency e v h⟩

/-- C4 (witness): a failed WAN ping gives an Error status, and the theorem
yields the zero latency there. -/
theorem error_implies_zero_latency_witness :
    (CheckL3WAN ⟨none⟩).Status = Status.Error ∧ (CheckL3WAN ⟨none⟩).Latency = 0 :=
  ⟨by decide, error_implies_zero_latency.2.2.1 ⟨none⟩ (by decide)⟩

/-- C5 (counterexample): the gateway check has no latency threshold at all:
with a measured latency of 150 ms + 1 µs (one microsecond above the WAN
warning threshold) its status stays Ok, not Warning. -/
theorem gateway_latency_above_threshold_stays_ok :
    (CheckL3Gateway gwEnvAbove false).Latency = 150001000 ∧
    (CheckL3Gateway gwEnvAbove false).Status = Status.Ok ∧
    Status.Ok ≠ Status.Warning :=
  ⟨by decide, by decide, by decide⟩

/-- C5 (amended): the WAN check's threshold comparison is strict — latency
exactly 150 ms stays Ok while 150 ms + 1 µs flips to Warning — whereas the
gateway check applies no latency threshold and can never report Warning. -/
theorem wan_threshold_strict_gateway_thresholdless :
    (CheckL3WAN wanEnvAt).Latency = 150000000 ∧
    (CheckL3WAN wanEnvAt).Status = Status.Ok ∧
    (CheckL3WAN wanEnvAbove).Latency = 150001000 ∧
    (CheckL3WAN wanEnvAbove).Status = Status.Warning ∧
    ∀ (e : GatewayEnv) (v : Bool),
      (CheckL3Gateway e v).Status = Status.Ok ∨
      (CheckL3Gateway e v).Status = Status.Error :=
  ⟨by decide, by decide, by decide, by decide, CheckL3Gateway_ok_or_error⟩

/-- C6 (counterexample): with the summary line present but the captured
average field 1.2.3 malformed, parsePing returns a zero duration with no
error (some 0) instead of failing. -/
theorem parsePing_malformed_capture_ok_zero :
    parsePing pingOutMalformedAvg = some 0 := by decide

/-- C6 (amended): parsePing fails only when the summary pattern is absent;
when the pattern is present but the capture is not a well-formed number the
ParseFloat failure is discarded and a zero duration is returned with no
error. -/
theorem parsePing_ignores_parseFloat_failure :
    (∀ out : String, findPingCap out.data = none → parsePing out = none) ∧
    (∀ (out : String) (cap : List Char), findPingCap out.data = some cap →
      parseDecimal cap = none → parsePing out = some 0) := by
  constructor
  · intro out h
    simp [parsePing, h]
  · intro out cap h hd
    simp only [parsePing, h, hd, Option.getD_none]
    decide

/-- C6 (amended, witness): a summary-free output fails, and the malformed
capture 1.2.3 yields some 0. -/
theorem parsePing_ignores_parseFloat_failure_witness :
    parsePing "PING 1.1.1.1: no statistics" = none ∧
    parsePing pingOutMalformedAvg = some 0 :=
  ⟨parsePing_ignores_parseFloat_failure.1 _ (by decide),
   parsePing_ignores_parseFloat_failure.2 pingOutMalformedAvg
     ['1', '.', '2', '.', '3'] (by decide) (by decide)⟩

/-- C7: the captive-portal classification depends only on the first 1024
body bytes — the whole Result is unchanged when the body is truncated to
the cap — and whenever the capped prefix lacks the Success marker the check
reports Warning, even if a marker sits beyond the cap. -/
theorem captivePortal_caps_body_inspection :
    ∀ (st : String) (hs : List (String × List String)) (body : List Char)
      (dur : Int) (v : Bool),
      CheckCaptivePortal ⟨some ⟨st, hs, body⟩, dur⟩ v =
        CheckCaptivePortal ⟨some ⟨st, hs, body.take 1024⟩, dur⟩ v ∧
      (containsSub (body.take 1024) successMarker = false →
        (CheckCaptivePortal ⟨some ⟨st, hs, body⟩, dur⟩ v).Status = Status.Warning) := by
  intro st hs body dur v
  have htake : (body.take 1024).take 1024 = body.take 1024 := by
    simp [List.take_take]
  constructor
  · simp only [CheckCaptivePortal, htake]
  · intro h
    have hcond : ¬(containsSub (body.take 1024) successMarker = true) := by
      rw [h]
      exact Bool.false_ne_true
    simp only [CheckCaptivePortal, if_neg hcond]

/-- C7 (witness): a body of 1024 filler bytes followed by Success contains
the marker only beyond the cap, and the check reports Warning on it. -/
theorem captivePortal_caps_body_inspection_witness :
    containsSub (portalBigBody.take 1024) successMarker = false ∧
    containsSub portalBigBody successMarker = true ∧
    (CheckCaptivePortal portalEnvBig false).Status = Status.Warning := by
  refine ⟨by decide, by decide, ?_⟩
  exact (captivePortal_caps_body_inspection "200 OK" [] portalBigBody 42 false).2 (by decide)

/-- C8: parseGateway returns the literal 192.168.0.1 for dumps carrying that
gateway line (any prefix free of the letter g, any suffix not starting with
a digit — so also for the canonical full dump), and fails with the NotFound
error exactly when no position of the dump matches the pattern
gateway: digits.digits.digits.digits (token absent, or its address not a
dotted quad of digit runs). -/
theorem parseGateway_literal_and_notfound :
    (∀ pre post : List Char, (∀ c ∈ pre, c ≠ 'g') →
      post.takeWhile Char.isDigit = [] →
      findGatewayCap (pre ++ gwLineL ++ post) = some ipCapL) ∧
    (∀ out : String, findGatewayCap out.data = none → parseGateway out = none) ∧
    parseGateway routeDumpOk = some "192.168.0.1" ∧
    parseGateway routeDumpAbsent = none ∧
    parseGateway routeDumpBadQuad = none := by
  refine ⟨?_, ?_, by decide, by decide, by decide⟩
  · intro pre post hpre hpost
    induction pre with
    | nil =>
      simp +decide [findGatewayCap, matchGatewayAt, matchQuadAt, gwPat, gwLineL,
        ipCapL, List.isPrefixOf, List.takeWhile_cons, hpost]
    | cons c t ih =>
      rw [List.cons_append, List.cons_append,
        findGatewayCap_cons_of_none (matchGatewayAt_cons_ne (hpre c (List.mem_cons_self c t)))]
      exact ih fun x hx => hpre x (List.mem_cons_of_mem _ hx)
  · intro out h
    simp [parseGateway, h]

/-- C8 (witness): the general clause applied to a concrete prefix and
suffix. -/
theorem parseGateway_literal_and_notfound_witness :
    findGatewayCap (preW ++ gwLineL ++ postW) = some ipCapL :=
  parseGateway_literal_and_notfound.1 preW postW (by decide) (by decide)

/-- C9: when no line of the telemetry blob contains the Current Network
Information marker, parseWiFiInfo returns an Ok result with zero signal
(and no details, default name, no fix) — graceful degradation, never an
Error status, and the parser cannot fail at all. -/
theorem parseWiFiInfo_graceful_without_marker :
    ∀ (output iface : String) (v : Bool),
      (∀ l ∈ splitOnChar '\n' output.data, containsSub l currentMarker = false) →
      parseWiFiInfo output iface v =
        { Name := "Wi-Fi", Latency := 0, Status := Status.Ok,
          Message := "Interface: " ++ iface ++ ", Signal: 0 dBm",
          Fix := "", Emoji := "📡", Details := [] } := by
  intro o i v h
  simp only [parseWiFiInfo]
  rw [wifiLoop_skip v _ _ rfl h]
  simp +decide [String.append_assoc]
  rfl

/-- C9 (witness): a marker-free telemetry blob parses to the degraded Ok
result. -/
theorem parseWiFiInfo_graceful_without_marker_witness :
    parseWiFiInfo wifiOutNoMarker "en0" true =
      { Name := "Wi-Fi", Latency := 0, Status := Status.Ok,
        Message := "Interface: " ++ "en0" ++ ", Signal: 0 dBm",
        Fix := "", Emoji := "📡", Details := [] } :=
  parseWiFiInfo_graceful_without_marker wifiOutNoMarker "en0" true (by decide)

/-- C10 (counterexample): in verbose mode an active lookup outcome and a
failed one yield Results that differ in Details (the Proxy Node lines), not
only in Message — both still Ok. -/
theorem privateRelay_verbose_details_vary_with_outcome :
    (CheckPrivateRelay relayEnvActive true).Status = Status.Ok ∧
    (CheckPrivateRelay relayEnvFail true).Status = Status.Ok ∧
    (CheckPrivateRelay relayEnvActive true).Details ≠
      (CheckPrivateRelay relayEnvFail true).Details :=
  ⟨by decide, by decide, by decide⟩

/-- C10 (amended): the relay check never returns Warning or Error — Status
is always Ok and Latency always equals the lookup duration; the Message is
one of the two fixed strings (active versus inactive/bypass), and without
the verbose flag the outcomes differ in nothing else (Details stays
empty). -/
theorem privateRelay_always_ok_with_lookup_latency :
    ∀ (env : RelayEnv) (v : Bool),
      (CheckPrivateRelay env v).Status = Status.Ok ∧
      (CheckPrivateRelay env v).Latency = env.dur ∧
      ((CheckPrivateRelay env v).Message = "Active (Apple Proxy Node detected)" ∨
        (CheckPrivateRelay env v).Message = "Inactive or Bypass mode") ∧
      (v = false → (CheckPrivateRelay env v).Details = []) := by
  intro env v
  refine ⟨CheckPrivateRelay_status_ok env v, CheckPrivateRelay_latency env v, ?_, ?_⟩
  · simp only [CheckPrivateRelay]
    split
    · split
      · exact Or.inr rfl
      · exact Or.inl rfl
    · exact Or.inr rfl
  · intro hv
    subst hv
    simp only [CheckPrivateRelay]
    split
    · split <;> rfl
    · rfl

/-- C10 (amended, witness): a failed lookup without verbose: Ok status, the
lookup duration as latency, no details. -/
theorem privateRelay_always_ok_witness :
    (CheckPrivateRelay relayEnvFail false).Status = Status.Ok ∧
    (CheckPrivateRelay relayEnvFail false).Latency = 5000000 ∧
    (CheckPrivateRelay relayEnvFail false).Details = [] :=
  ⟨(privateRelay_always_ok_with_lookup_latency relayEnvFail false).1,
   ((privateRelay_always_ok_with_lookup_latency relayEnvFail false).2.1).trans rfl,
   (privateRelay_always_ok_with_lookup_latency relayEnvFail false).2.2.2 rfl⟩

end Wtfi
